import Mathlib

/-! # runsc/boot/config.go

A shallow embedding of the three closed enumerations of `runsc/boot/config.go`
(`PlatformType`, `FileAccessType`, `NetworkType`), their parse functions
(`MakePlatformType`, `MakeFileAccessType`, `MakeNetworkType`), their render
methods (`String`) and the `Config` record.

Modelling conventions.

* A Go `string` is a Lean `String`: the strings covered are the well-formed
  UTF-8 ones. Go compares strings bytewise, which on well-formed UTF-8 is
  equality of the rune sequences.
* The three enumeration types are declared `int` in Go; a value is any integer
  and is modelled by `Int` (no arithmetic is done on them, so the 64-bit width
  of `int` plays no role).
* A Go result `(T, error)` is the pair `T × error`, where `error` is
  `Option String`: `none` is `nil` and `some msg` is an error whose text
  (`Error()`) is `msg`.
* `fmt.Errorf` and `fmt.Sprintf` belong to the Go standard library. The verb
  `%d` is modelled by `fmtInteger`, the verb `%q` by `Quote`, which follows
  `strconv.Quote`.
-/

/-! ## Standard-library formatting used by the file -/

/-- Go's `error` interface, reduced to the text of the error: `none` is `nil`. -/
abbrev error := Option String

/-- The verb `%d` on a signed integer: a minus sign for a negative value,
then the magnitude in base ten. -/
def fmtInteger (d : Int) : String :=
  if d < 0 then "-" ++ Nat.repr d.natAbs else Nat.repr d.natAbs

/-- The digit table `lowerhex` of `strconv`. -/
def lowerhex : List Char := "0123456789abcdef".data

/-- Indexing of `lowerhex` by a value below sixteen. -/
def hexDigit (n : Nat) : Char := lowerhex.getD n '0'

/-- `strconv.IsPrint`. The Latin-1 range is decided by the fast path of the
function; for a rune above U+00FF the function consults the Unicode tables of
`strconv`, which are not part of this repository and are the parameter `wide`. -/
def IsPrint (wide : Nat → Bool) (r : Nat) : Bool :=
  if r ≤ 0xFF then
    if 0x20 ≤ r ∧ r ≤ 0x7E then true
    else if 0xA1 ≤ r ∧ r ≤ 0xFF then r != 0xAD
    else false
  else wide r

/-- `utf8.ValidRune`: a code point that is in range and not a surrogate. -/
def ValidRune (r : Nat) : Bool :=
  if r < 0xD800 then true
  else if 0xDFFF < r ∧ r ≤ 0x10FFFF then true
  else false

/-- `strconv.appendEscapedRune` with `quote = '"'`, `ASCIIonly = false` and
`graphicOnly = false`, returning the characters appended for the rune `r`.
(U+007F is written `\x7f`, as current Go releases do; releases before Go 1.19
wrote `\u007f`. Nothing proved below depends on which.) -/
def appendEscapedRune (wide : Nat → Bool) (r : Nat) : List Char :=
  if r = 0x22 ∨ r = 0x5C then ['\\', Char.ofNat r]
  else if IsPrint wide r then [Char.ofNat r]
  else if r = 0x07 then ['\\', 'a']
  else if r = 0x08 then ['\\', 'b']
  else if r = 0x0C then ['\\', 'f']
  else if r = 0x0A then ['\\', 'n']
  else if r = 0x0D then ['\\', 'r']
  else if r = 0x09 then ['\\', 't']
  else if r = 0x0B then ['\\', 'v']
  else if r < 0x20 ∨ r = 0x7F then
    ['\\', 'x', hexDigit (r % 256 / 16), hexDigit (r % 16)]
  else if !ValidRune r then
    ['\\', 'u', 'f', 'f', 'f', 'd']
  else if r < 0x10000 then
    ['\\', 'u', hexDigit (r / 4096 % 16), hexDigit (r / 256 % 16),
      hexDigit (r / 16 % 16), hexDigit (r % 16)]
  else
    ['\\', 'U', hexDigit (r / 268435456 % 16), hexDigit (r / 16777216 % 16),
      hexDigit (r / 1048576 % 16), hexDigit (r / 65536 % 16),
      hexDigit (r / 4096 % 16), hexDigit (r / 256 % 16),
      hexDigit (r / 16 % 16), hexDigit (r % 16)]

/-- The loop of `strconv.appendQuotedWith` over the runes of the string. -/
def quoteRunes (wide : Nat → Bool) : List Char → List Char
  | [] => []
  | c :: cs => appendEscapedRune wide c.toNat ++ quoteRunes wide cs

/-- `strconv.Quote`, which is what the verb `%q` prints for a string: an
opening double quote, every rune escaped by `appendEscapedRune`, a closing
double quote. -/
def Quote (wide : Nat → Bool) (s : String) : String :=
  ⟨'"' :: (quoteRunes wide s.data ++ ['"'])⟩

/-! ## PlatformType -/

/-- PlatformType tells which platform to use (`type PlatformType int`). -/
abbrev PlatformType := Int

/-- Ptrace runs the sandbox with the ptrace platform (`iota`, that is 0). -/
def PlatformPtrace : PlatformType := 0

/-- KVM runs the sandbox with the KVM platform. -/
def PlatformKVM : PlatformType := 1

/-- MakePlatformType converts type from string. -/
def MakePlatformType (wide : Nat → Bool) (s : String) : PlatformType × error :=
  if s = "ptrace" then (PlatformPtrace, none)
  else if s = "kvm" then (PlatformKVM, none)
  else (0, some ("invalid platform type " ++ Quote wide s))

/-- The method `String` of `PlatformType`. -/
def PlatformType.String (p : PlatformType) : String :=
  if p = PlatformPtrace then "ptrace"
  else if p = PlatformKVM then "kvm"
  else "unknown(" ++ fmtInteger p ++ ")"

/-! ## FileAccessType -/

/-- FileAccessType tells how the filesystem is accessed
(`type FileAccessType int`). -/
abbrev FileAccessType := Int

/-- FileAccessProxy sends IO requests to a Gofer process that validates the
requests and forwards them to the host (`iota`, that is 0). -/
def FileAccessProxy : FileAccessType := 0

/-- FileAccessDirect connects the sandbox directly to the host filesystem. -/
def FileAccessDirect : FileAccessType := 1

/-- MakeFileAccessType converts type from string. -/
def MakeFileAccessType (wide : Nat → Bool) (s : String) : FileAccessType × error :=
  if s = "proxy" then (FileAccessProxy, none)
  else if s = "direct" then (FileAccessDirect, none)
  else (0, some ("invalid file access type " ++ Quote wide s))

/-- The method `String` of `FileAccessType`. -/
def FileAccessType.String (f : FileAccessType) : String :=
  if f = FileAccessProxy then "proxy"
  else if f = FileAccessDirect then "direct"
  else "unknown(" ++ fmtInteger f ++ ")"

/-! ## NetworkType -/

/-- NetworkType tells which network stack to use (`type NetworkType int`). -/
abbrev NetworkType := Int

/-- NetworkSandbox uses internal network stack, isolated from the host
(`iota`, that is 0). -/
def NetworkSandbox : NetworkType := 0

/-- NetworkHost redirects network related syscalls to the host network. -/
def NetworkHost : NetworkType := 1

/-- NetworkNone sets up just loopback using netstack. -/
def NetworkNone : NetworkType := 2

/-- MakeNetworkType converts type from string. -/
def MakeNetworkType (wide : Nat → Bool) (s : String) : NetworkType × error :=
  if s = "sandbox" then (NetworkSandbox, none)
  else if s = "host" then (NetworkHost, none)
  else if s = "none" then (NetworkNone, none)
  else (0, some ("invalid network type " ++ Quote wide s))

/-- The method `String` of `NetworkType`. -/
def NetworkType.String (n : NetworkType) : String :=
  if n = NetworkSandbox then "sandbox"
  else if n = NetworkHost then "host"
  else if n = NetworkNone then "none"
  else "unknown(" ++ fmtInteger n ++ ")"

/-! ## Config -/

/-- Config holds configuration that is not part of the runtime spec. The slice
`StraceSyscalls` is the list of its elements and the `uint` `StraceLogSize` a
natural number. -/
structure Config where
  /-- RootDir is the runtime root directory. -/
  RootDir : String
  /-- FileAccess indicates how the filesystem is accessed. -/
  FileAccess : FileAccessType
  /-- Overlay is whether to wrap the root filesystem in an overlay. -/
  Overlay : Bool
  /-- Network indicates what type of network to use. -/
  Network : NetworkType
  /-- LogPackets indicates that all network packets should be logged. -/
  LogPackets : Bool
  /-- Platform is the platform to run on. -/
  Platform : PlatformType
  /-- Strace indicates that strace should be enabled. -/
  Strace : Bool
  /-- StraceSyscalls is the set of syscalls to trace. -/
  StraceSyscalls : List String
  /-- StraceLogSize is the max size of data blobs to display. -/
  StraceLogSize : Nat
  /-- DisableSeccomp indicates whether seccomp syscall filters should be
  disabled. -/
  DisableSeccomp : Bool
  deriving DecidableEq

/-- The zero value of `Config` (`Config{}` or `var c Config`): every field holds
the zero value of its type. -/
def Config.zero : Config :=
  { RootDir := "", FileAccess := 0, Overlay := false, Network := 0,
    LogPackets := false, Platform := 0, Strace := false, StraceSyscalls := [],
    StraceLogSize := 0, DisableSeccomp := false }

/-- Copying a `Config` value (assignment, or passing by value): Go copies the
struct field by field. -/
def Config.copy (c : Config) : Config :=
  { RootDir := c.RootDir, FileAccess := c.FileAccess, Overlay := c.Overlay,
    Network := c.Network, LogPackets := c.LogPackets, Platform := c.Platform,
    Strace := c.Strace, StraceSyscalls := c.StraceSyscalls,
    StraceLogSize := c.StraceLogSize, DisableSeccomp := c.DisableSeccomp }

/-! ## Reading a quoted string back -/

/-- The value of a digit of `lowerhex`: its index in the table. -/
def hexVal (c : Char) : Nat := lowerhex.indexOf c

/-- Reads one rune back from the front of a text written by
`appendEscapedRune`, returning the rune and the rest of the text. It is used to
show that quoting loses no information. -/
def unescapeRune : List Char → Option (Nat × List Char)
  | [] => none
  | c :: rest =>
    if c ≠ '\\' then some (c.toNat, rest)
    else
      match rest with
      | [] => none
      | e :: rest =>
        if e = '"' then some (0x22, rest)
        else if e = '\\' then some (0x5C, rest)
        else if e = 'a' then some (0x07, rest)
        else if e = 'b' then some (0x08, rest)
        else if e = 'f' then some (0x0C, rest)
        else if e = 'n' then some (0x0A, rest)
        else if e = 'r' then some (0x0D, rest)
        else if e = 't' then some (0x09, rest)
        else if e = 'v' then some (0x0B, rest)
        else if e = 'x' then
          match rest with
          | a :: b :: rest => some (hexVal a * 16 + hexVal b, rest)
          | _ => none
        else if e = 'u' then
          match rest with
          | a :: b :: c :: d :: rest =>
            some (hexVal a * 4096 + hexVal b * 256 + hexVal c * 16 + hexVal d, rest)
          | _ => none
        else if e = 'U' then
          match rest with
          | a :: b :: c :: d :: e :: f :: g :: h :: rest =>
            some (hexVal a * 268435456 + hexVal b * 16777216 + hexVal c * 1048576 +
              hexVal d * 65536 + hexVal e * 4096 + hexVal f * 256 + hexVal g * 16 +
              hexVal h, rest)
          | _ => none
        else none

/-! ## Reading a decimal rendering back -/

/-- The number written by a list of decimal digits, most significant first. It
is used to show that the decimal rendering loses no information. -/
def digitsVal (l : List Char) : Nat :=
  l.foldl (fun a c => 10 * a + (c.toNat - 48)) 0

/-! ## Plain characters -/

/-- A printable ASCII character (U+0020 to U+007E) other than the double quote
and the backslash. -/
def plainASCII (c : Char) : Bool :=
  decide (0x20 ≤ c.toNat) && decide (c.toNat ≤ 0x7E) && (c != '"') && (c != '\\')

/-! ## Results as seen by the caller -/

/-- What the caller of a Go function of result type `(T, error)` receives: when
the error is not `nil` the call has failed with that error and the value slot is
not a result; when the error is `nil` the value is the result. -/
def outcome {α : Type} (r : α × error) : Except String α :=
  match r.2 with
  | some msg => Except.error msg
  | none => Except.ok r.1

/-! ## Literal sets -/

/-- The declared literals of `PlatformType`, in declaration order. -/
def platformLiterals : List String := ["ptrace", "kvm"]

/-- The declared literals of `FileAccessType`, in declaration order. -/
def fileAccessLiterals : List String := ["proxy", "direct"]

/-- The declared literals of `NetworkType`, in declaration order. -/
def networkLiterals : List String := ["sandbox", "host", "none"]

/-! ## C1: render after parse -/

/-- C1: for every declared literal `s` of each of the three enumerations and
whatever the printability table, the parse function succeeds on `s` (its error
is `nil`) and `String()` of the value it returns is `s`. -/
theorem C1_render_after_parse (wide : Nat → Bool) :
    (∀ s ∈ platformLiterals, (MakePlatformType wide s).2 = none ∧
      PlatformType.String (MakePlatformType wide s).1 = s) ∧
    (∀ s ∈ fileAccessLiterals, (MakeFileAccessType wide s).2 = none ∧
      FileAccessType.String (MakeFileAccessType wide s).1 = s) ∧
    (∀ s ∈ networkLiterals, (MakeNetworkType wide s).2 = none ∧
      NetworkType.String (MakeNetworkType wide s).1 = s) := by
  refine ⟨?_, ?_, ?_⟩
  · intro s hs
    simp only [platformLiterals, List.mem_cons, List.mem_singleton, List.mem_nil_iff,
      or_false] at hs
    rcases hs with rfl | rfl <;> exact ⟨rfl, rfl⟩
  · intro s hs
    simp only [fileAccessLiterals, List.mem_cons, List.mem_singleton, List.mem_nil_iff,
      or_false] at hs
    rcases hs with rfl | rfl <;> exact ⟨rfl, rfl⟩
  · intro s hs
    simp only [networkLiterals, List.mem_cons, List.mem_singleton, List.mem_nil_iff,
      or_false] at hs
    rcases hs with rfl | rfl | rfl <;> exact ⟨rfl, rfl⟩

/-- C1 at the literal `"kvm"`, `"direct"` and `"none"`, with a table that holds
every wide rune printable. -/
theorem C1_render_after_parse_witness :
    "kvm" ∈ platformLiterals ∧
    ((MakePlatformType (fun _ => true) "kvm").2 = none ∧
      PlatformType.String (MakePlatformType (fun _ => true) "kvm").1 = "kvm") ∧
    "direct" ∈ fileAccessLiterals ∧
    ((MakeFileAccessType (fun _ => true) "direct").2 = none ∧
      FileAccessType.String (MakeFileAccessType (fun _ => true) "direct").1 = "direct") ∧
    "none" ∈ networkLiterals ∧
    ((MakeNetworkType (fun _ => true) "none").2 = none ∧
      NetworkType.String (MakeNetworkType (fun _ => true) "none").1 = "none") :=
  ⟨by decide, (C1_render_after_parse (fun _ => true)).1 "kvm" (by decide),
   by decide, (C1_render_after_parse (fun _ => true)).2.1 "direct" (by decide),
   by decide, (C1_render_after_parse (fun _ => true)).2.2 "none" (by decide)⟩

/-! ## Shape of the result of the parse functions -/

theorem MakePlatformType_rejected (wide : Nat → Bool) (s : String)
    (h : s ∉ platformLiterals) :
    MakePlatformType wide s = (0, some ("invalid platform type " ++ Quote wide s)) := by
  simp only [platformLiterals, List.mem_cons, List.mem_singleton, List.mem_nil_iff,
    or_false, not_or] at h
  simp [MakePlatformType, h.1, h.2]

theorem MakeFileAccessType_rejected (wide : Nat → Bool) (s : String)
    (h : s ∉ fileAccessLiterals) :
    MakeFileAccessType wide s =
      (0, some ("invalid file access type " ++ Quote wide s)) := by
  simp only [fileAccessLiterals, List.mem_cons, List.mem_singleton, List.mem_nil_iff,
    or_false, not_or] at h
  simp [MakeFileAccessType, h.1, h.2]

theorem MakeNetworkType_rejected (wide : Nat → Bool) (s : String)
    (h : s ∉ networkLiterals) :
    MakeNetworkType wide s = (0, some ("invalid network type " ++ Quote wide s)) := by
  simp only [networkLiterals, List.mem_cons, List.mem_singleton, List.mem_nil_iff,
    or_false, not_or] at h
  simp [MakeNetworkType, h.1, h.2.1, h.2.2]

theorem MakePlatformType_accepted (wide : Nat → Bool) (s : String)
    (h : s ∈ platformLiterals) :
    MakePlatformType wide s = (0, none) ∧ s = "ptrace" ∨
    MakePlatformType wide s = (1, none) ∧ s = "kvm" := by
  simp only [platformLiterals, List.mem_cons, List.mem_singleton, List.mem_nil_iff,
    or_false] at h
  rcases h with rfl | rfl
  · exact Or.inl ⟨rfl, rfl⟩
  · exact Or.inr ⟨rfl, rfl⟩

theorem MakeFileAccessType_accepted (wide : Nat → Bool) (s : String)
    (h : s ∈ fileAccessLiterals) :
    MakeFileAccessType wide s = (0, none) ∧ s = "proxy" ∨
    MakeFileAccessType wide s = (1, none) ∧ s = "direct" := by
  simp only [fileAccessLiterals, List.mem_cons, List.mem_singleton, List.mem_nil_iff,
    or_false] at h
  rcases h with rfl | rfl
  · exact Or.inl ⟨rfl, rfl⟩
  · exact Or.inr ⟨rfl, rfl⟩

theorem MakeNetworkType_accepted (wide : Nat → Bool) (s : String)
    (h : s ∈ networkLiterals) :
    MakeNetworkType wide s = (0, none) ∧ s = "sandbox" ∨
    MakeNetworkType wide s = (1, none) ∧ s = "host" ∨
    MakeNetworkType wide s = (2, none) ∧ s = "none" := by
  simp only [networkLiterals, List.mem_cons, List.mem_singleton, List.mem_nil_iff,
    or_false] at h
  rcases h with rfl | rfl | rfl
  · exact Or.inl ⟨rfl, rfl⟩
  · exact Or.inr (Or.inl ⟨rfl, rfl⟩)
  · exact Or.inr (Or.inr ⟨rfl, rfl⟩)

theorem MakePlatformType_error_iff (wide : Nat → Bool) (s : String) :
    (MakePlatformType wide s).2 ≠ none ↔ s ∉ platformLiterals := by
  constructor
  · intro h hs
    rcases MakePlatformType_accepted wide s hs with ⟨e, _⟩ | ⟨e, _⟩ <;> simp [e] at h
  · intro hs
    simp [MakePlatformType_rejected wide s hs]

theorem MakeFileAccessType_error_iff (wide : Nat → Bool) (s : String) :
    (MakeFileAccessType wide s).2 ≠ none ↔ s ∉ fileAccessLiterals := by
  constructor
  · intro h hs
    rcases MakeFileAccessType_accepted wide s hs with ⟨e, _⟩ | ⟨e, _⟩ <;> simp [e] at h
  · intro hs
    simp [MakeFileAccessType_rejected wide s hs]

theorem MakeNetworkType_error_iff (wide : Nat → Bool) (s : String) :
    (MakeNetworkType wide s).2 ≠ none ↔ s ∉ networkLiterals := by
  constructor
  · intro h hs
    rcases MakeNetworkType_accepted wide s hs with ⟨e, _⟩ | ⟨e, _⟩ | ⟨e, _⟩ <;>
      simp [e] at h
  · intro hs
    simp [MakeNetworkType_rejected wide s hs]

theorem outcome_error_iff {α : Type} (r : α × error) :
    (∃ msg, outcome r = Except.error msg) ↔ r.2 ≠ none := by
  rcases r with ⟨v, _ | m⟩ <;> simp [outcome]

theorem outcome_ok_iff {α : Type} (r : α × error) :
    (∃ v, outcome r = Except.ok v) ↔ r.2 = none := by
  rcases r with ⟨v, _ | m⟩ <;> simp [outcome]

/-! ## C2: totality of rejection -/

/-- C2: each parse function returns a non-nil error, and with it no variant
(the call yields `Except.error`), exactly when its argument is not one of the
declared lowercase literals of the enumeration; it returns a nil error and a
variant exactly when the argument is one. The comparison is exact: the empty
string, the case variants `"KVM"`, `"Ptrace"`, `"PROXY"`, `"Host"`, `"HOST"` and
the padded variants `" kvm"`, `"kvm "`, `" direct"`, `"none "` are all
rejected. -/
theorem C2_rejection_iff_not_literal (wide : Nat → Bool) (s : String) :
    (((MakePlatformType wide s).2 ≠ none ↔ s ∉ platformLiterals) ∧
      ((∃ msg, outcome (MakePlatformType wide s) = Except.error msg) ↔
        s ∉ platformLiterals) ∧
      ((∃ v, outcome (MakePlatformType wide s) = Except.ok v) ↔
        s ∈ platformLiterals)) ∧
    (((MakeFileAccessType wide s).2 ≠ none ↔ s ∉ fileAccessLiterals) ∧
      ((∃ msg, outcome (MakeFileAccessType wide s) = Except.error msg) ↔
        s ∉ fileAccessLiterals) ∧
      ((∃ v, outcome (MakeFileAccessType wide s) = Except.ok v) ↔
        s ∈ fileAccessLiterals)) ∧
    (((MakeNetworkType wide s).2 ≠ none ↔ s ∉ networkLiterals) ∧
      ((∃ msg, outcome (MakeNetworkType wide s) = Except.error msg) ↔
        s ∉ networkLiterals) ∧
      ((∃ v, outcome (MakeNetworkType wide s) = Except.ok v) ↔
        s ∈ networkLiterals)) ∧
    ((MakePlatformType wide "").2 ≠ none ∧ (MakePlatformType wide "KVM").2 ≠ none ∧
      (MakePlatformType wide "Ptrace").2 ≠ none ∧
      (MakePlatformType wide " kvm").2 ≠ none ∧
      (MakePlatformType wide "kvm ").2 ≠ none) ∧
    ((MakeFileAccessType wide "").2 ≠ none ∧
      (MakeFileAccessType wide "PROXY").2 ≠ none ∧
      (MakeFileAccessType wide " direct").2 ≠ none) ∧
    ((MakeNetworkType wide "").2 ≠ none ∧ (MakeNetworkType wide "Host").2 ≠ none ∧
      (MakeNetworkType wide "HOST").2 ≠ none ∧
      (MakeNetworkType wide "none ").2 ≠ none) := by
  have hp := MakePlatformType_error_iff wide
  have hf := MakeFileAccessType_error_iff wide
  have hn := MakeNetworkType_error_iff wide
  refine ⟨⟨hp s, ?_, ?_⟩, ⟨hf s, ?_, ?_⟩, ⟨hn s, ?_, ?_⟩, ⟨?_, ?_, ?_, ?_, ?_⟩,
    ⟨?_, ?_, ?_⟩, ⟨?_, ?_, ?_, ?_⟩⟩
  · rw [outcome_error_iff]; exact hp s
  · rw [outcome_ok_iff]; exact not_iff_not.mp (hp s)
  · rw [outcome_error_iff]; exact hf s
  · rw [outcome_ok_iff]; exact not_iff_not.mp (hf s)
  · rw [outcome_error_iff]; exact hn s
  · rw [outcome_ok_iff]; exact not_iff_not.mp (hn s)
  all_goals first
    | exact (hp _).mpr (by decide)
    | exact (hf _).mpr (by decide)
    | exact (hn _).mpr (by decide)

/-! ## C3: the variant table -/

/-- C3: the parse functions follow the variant table (`"ptrace"` and `"kvm"`;
`"proxy"` and `"direct"`; `"sandbox"`, `"host"` and `"none"`, each with a nil
error), and the named constants have the zero-based discriminants of their
declaration order. -/
theorem C3_parse_follows_variant_table (wide : Nat → Bool) :
    MakePlatformType wide "ptrace" = (PlatformPtrace, none) ∧
    MakePlatformType wide "kvm" = (PlatformKVM, none) ∧
    MakeFileAccessType wide "proxy" = (FileAccessProxy, none) ∧
    MakeFileAccessType wide "direct" = (FileAccessDirect, none) ∧
    MakeNetworkType wide "sandbox" = (NetworkSandbox, none) ∧
    MakeNetworkType wide "host" = (NetworkHost, none) ∧
    MakeNetworkType wide "none" = (NetworkNone, none) ∧
    PlatformPtrace = 0 ∧ PlatformKVM = 1 ∧
    FileAccessProxy = 0 ∧ FileAccessDirect = 1 ∧
    NetworkSandbox = 0 ∧ NetworkHost = 1 ∧ NetworkNone = 2 :=
  ⟨rfl, rfl, rfl, rfl, rfl, rfl, rfl, rfl, rfl, rfl, rfl, rfl, rfl, rfl⟩

/-! ## C7: the zero value is the first variant -/

/-- C7: the zero value of each enumeration type is its first declared variant
and renders as the first declared literal, so that a zero-initialized `Config`
has `Platform`, `FileAccess` and `Network` rendering as `"ptrace"`, `"proxy"`
and `"sandbox"`. -/
theorem C7_zero_value_is_first_variant :
    (0 : PlatformType) = PlatformPtrace ∧ PlatformType.String 0 = "ptrace" ∧
    (0 : FileAccessType) = FileAccessProxy ∧ FileAccessType.String 0 = "proxy" ∧
    (0 : NetworkType) = NetworkSandbox ∧ NetworkType.String 0 = "sandbox" ∧
    PlatformType.String Config.zero.Platform = "ptrace" ∧
    FileAccessType.String Config.zero.FileAccess = "proxy" ∧
    NetworkType.String Config.zero.Network = "sandbox" ∧
    platformLiterals.head? = some "ptrace" ∧
    fileAccessLiterals.head? = some "proxy" ∧
    networkLiterals.head? = some "sandbox" :=
  ⟨rfl, rfl, rfl, rfl, rfl, rfl, rfl, rfl, rfl, rfl, rfl, rfl⟩

/-! ## The placeholder of the render methods -/

theorem unknown_data (x : String) :
    ("unknown(" ++ x ++ ")").data =
      'u' :: 'n' :: 'k' :: 'n' :: 'o' :: 'w' :: 'n' :: '(' :: (x.data ++ [')']) := by
  simp [String.data_append]

theorem unknown_not_literal (x l : String) (hl : l.data.head? ≠ some 'u') :
    "unknown(" ++ x ++ ")" ≠ l := by
  intro h
  apply hl
  rw [← h, unknown_data]
  rfl

theorem PlatformType_String_out_of_range (d : Int) (h : d < 0 ∨ 2 ≤ d) :
    PlatformType.String d = "unknown(" ++ fmtInteger d ++ ")" := by
  have h0 : d ≠ 0 := by omega
  have h1 : d ≠ 1 := by omega
  simp [PlatformType.String, PlatformPtrace, PlatformKVM, h0, h1]

theorem FileAccessType_String_out_of_range (d : Int) (h : d < 0 ∨ 2 ≤ d) :
    FileAccessType.String d = "unknown(" ++ fmtInteger d ++ ")" := by
  have h0 : d ≠ 0 := by omega
  have h1 : d ≠ 1 := by omega
  simp [FileAccessType.String, FileAccessProxy, FileAccessDirect, h0, h1]

theorem NetworkType_String_out_of_range (d : Int) (h : d < 0 ∨ 3 ≤ d) :
    NetworkType.String d = "unknown(" ++ fmtInteger d ++ ")" := by
  have h0 : d ≠ 0 := by omega
  have h1 : d ≠ 1 := by omega
  have h2 : d ≠ 2 := by omega
  simp [NetworkType.String, NetworkSandbox, NetworkHost, NetworkNone, h0, h1, h2]

theorem fmtInteger_eq_toString (d : Int) : fmtInteger d = toString d := by
  cases d with
  | ofNat m =>
    have : ¬ (Int.ofNat m < 0) := by simp
    simp only [fmtInteger, this, if_false]
    rfl
  | negSucc m =>
    have : Int.negSucc m < 0 := Int.negSucc_lt_zero m
    simp only [fmtInteger, this, if_true]
    rfl

/-! ## C6: defensive render -/

/-- C6: for an integer discriminant `d` outside the declared range (`d < 0`, or
`2 ≤ d` for `PlatformType` and `FileAccessType`, `3 ≤ d` for `NetworkType`) the
method `String` returns exactly `"unknown(" ++ decimal d ++ ")"`; that string
contains `"unknown"` and the decimal rendering of `d`, which is the standard one
and starts with `'-'` followed by the digits of the magnitude when `d` is
negative. The method is a total function, so it does not fail. -/
theorem C6_defensive_render (d : Int) :
    ((d < 0 ∨ 2 ≤ d) → PlatformType.String d = "unknown(" ++ fmtInteger d ++ ")") ∧
    ((d < 0 ∨ 2 ≤ d) → FileAccessType.String d = "unknown(" ++ fmtInteger d ++ ")") ∧
    ((d < 0 ∨ 3 ≤ d) → NetworkType.String d = "unknown(" ++ fmtInteger d ++ ")") ∧
    "unknown".data <:+: ("unknown(" ++ fmtInteger d ++ ")").data ∧
    (fmtInteger d).data <:+: ("unknown(" ++ fmtInteger d ++ ")").data ∧
    fmtInteger d = toString d ∧
    (d < 0 → fmtInteger d = "-" ++ Nat.repr d.natAbs) ∧
    (0 ≤ d → fmtInteger d = Nat.repr d.toNat) := by
  refine ⟨PlatformType_String_out_of_range d, FileAccessType_String_out_of_range d,
    NetworkType_String_out_of_range d, ?_, ?_, fmtInteger_eq_toString d, ?_, ?_⟩
  · rw [unknown_data]
    exact ⟨[], '(' :: ((fmtInteger d).data ++ [')']), rfl⟩
  · rw [unknown_data]
    exact ⟨['u', 'n', 'k', 'n', 'o', 'w', 'n', '('], [')'], by simp⟩
  · intro h
    simp [fmtInteger, h]
  · intro h
    have h' : ¬ d < 0 := by omega
    have e : d.natAbs = d.toNat := by omega
    simp [fmtInteger, h', e]

/-- C6 at the discriminants `-5`, `2` and `3`. -/
theorem C6_defensive_render_witness :
    PlatformType.String (-5) = "unknown(-5)" ∧
    FileAccessType.String 2 = "unknown(2)" ∧
    NetworkType.String 3 = "unknown(3)" ∧
    fmtInteger (-5) = "-" ++ Nat.repr 5 :=
  ⟨(C6_defensive_render (-5)).1 (by decide),
   (C6_defensive_render 2).2.1 (by decide),
   (C6_defensive_render 3).2.2.1 (by decide),
   (C6_defensive_render (-5)).2.2.2.2.2.2.1 (by decide)⟩

/-! ## C8: the valid discriminants -/

/-- C8: for each enumeration, (i) a value returned with a nil error by the parse
function lies in `{0 .. variantCount-1}`, (ii) every discriminant of that range
is returned with a nil error by the parse function for some string, and (iii)
for every integer `d`, `String()` of `d` is a declared literal exactly when
`0 ≤ d ≤ variantCount-1` (two variants for `PlatformType` and `FileAccessType`,
three for `NetworkType`). -/
theorem C8_valid_discriminants (wide : Nat → Bool) :
    ((∀ s, (MakePlatformType wide s).2 = none →
        0 ≤ (MakePlatformType wide s).1 ∧ (MakePlatformType wide s).1 ≤ 1) ∧
      (∀ d : Int, 0 ≤ d ∧ d ≤ 1 → ∃ s, MakePlatformType wide s = (d, none)) ∧
      (∀ d : Int, PlatformType.String d ∈ platformLiterals ↔ 0 ≤ d ∧ d ≤ 1)) ∧
    ((∀ s, (MakeFileAccessType wide s).2 = none →
        0 ≤ (MakeFileAccessType wide s).1 ∧ (MakeFileAccessType wide s).1 ≤ 1) ∧
      (∀ d : Int, 0 ≤ d ∧ d ≤ 1 → ∃ s, MakeFileAccessType wide s = (d, none)) ∧
      (∀ d : Int, FileAccessType.String d ∈ fileAccessLiterals ↔ 0 ≤ d ∧ d ≤ 1)) ∧
    ((∀ s, (MakeNetworkType wide s).2 = none →
        0 ≤ (MakeNetworkType wide s).1 ∧ (MakeNetworkType wide s).1 ≤ 2) ∧
      (∀ d : Int, 0 ≤ d ∧ d ≤ 2 → ∃ s, MakeNetworkType wide s = (d, none)) ∧
      (∀ d : Int, NetworkType.String d ∈ networkLiterals ↔ 0 ≤ d ∧ d ≤ 2)) := by
  refine ⟨⟨?_, ?_, ?_⟩, ⟨?_, ?_, ?_⟩, ⟨?_, ?_, ?_⟩⟩
  · intro s hs
    have hm : s ∈ platformLiterals := by
      by_contra hn
      exact (MakePlatformType_error_iff wide s).mpr hn hs
    rcases MakePlatformType_accepted wide s hm with ⟨e, _⟩ | ⟨e, _⟩ <;> simp [e]
  · intro d hd
    have hd' : d = 0 ∨ d = 1 := by omega
    rcases hd' with rfl | rfl
    · exact ⟨"ptrace", rfl⟩
    · exact ⟨"kvm", rfl⟩
  · intro d
    by_cases h : d < 0 ∨ 2 ≤ d
    · rw [PlatformType_String_out_of_range d h]
      constructor
      · intro hm
        simp only [platformLiterals, List.mem_cons, List.mem_singleton,
          List.mem_nil_iff, or_false] at hm
        rcases hm with hm | hm <;>
          exact absurd hm (unknown_not_literal _ _ (by decide))
      · intro hd
        omega
    · have hd' : d = 0 ∨ d = 1 := by omega
      rcases hd' with rfl | rfl <;> exact ⟨fun _ => by decide, fun _ => by decide⟩
  · intro s hs
    have hm : s ∈ fileAccessLiterals := by
      by_contra hn
      exact (MakeFileAccessType_error_iff wide s).mpr hn hs
    rcases MakeFileAccessType_accepted wide s hm with ⟨e, _⟩ | ⟨e, _⟩ <;> simp [e]
  · intro d hd
    have hd' : d = 0 ∨ d = 1 := by omega
    rcases hd' with rfl | rfl
    · exact ⟨"proxy", rfl⟩
    · exact ⟨"direct", rfl⟩
  · intro d
    by_cases h : d < 0 ∨ 2 ≤ d
    · rw [FileAccessType_String_out_of_range d h]
      constructor
      · intro hm
        simp only [fileAccessLiterals, List.mem_cons, List.mem_singleton,
          List.mem_nil_iff, or_false] at hm
        rcases hm with hm | hm <;>
          exact absurd hm (unknown_not_literal _ _ (by decide))
      · intro hd
        omega
    · have hd' : d = 0 ∨ d = 1 := by omega
      rcases hd' with rfl | rfl <;> exact ⟨fun _ => by decide, fun _ => by decide⟩
  · intro s hs
    have hm : s ∈ networkLiterals := by
      by_contra hn
      exact (MakeNetworkType_error_iff wide s).mpr hn hs
    rcases MakeNetworkType_accepted wide s hm with ⟨e, _⟩ | ⟨e, _⟩ | ⟨e, _⟩ <;>
      simp [e]
  · intro d hd
    have hd' : d = 0 ∨ d = 1 ∨ d = 2 := by omega
    rcases hd' with rfl | rfl | rfl
    · exact ⟨"sandbox", rfl⟩
    · exact ⟨"host", rfl⟩
    · exact ⟨"none", rfl⟩
  · intro d
    by_cases h : d < 0 ∨ 3 ≤ d
    · rw [NetworkType_String_out_of_range d h]
      constructor
      · intro hm
        simp only [networkLiterals, List.mem_cons, List.mem_singleton,
          List.mem_nil_iff, or_false] at hm
        rcases hm with hm | hm | hm <;>
          exact absurd hm (unknown_not_literal _ _ (by decide))
      · intro hd
        omega
    · have hd' : d = 0 ∨ d = 1 ∨ d = 2 := by omega
      rcases hd' with rfl | rfl | rfl <;>
        exact ⟨fun _ => by decide, fun _ => by decide⟩

/-- C8 at the strings `"kvm"`, `"direct"`, `"none"` and at the discriminants
`1` and `2`. -/
theorem C8_valid_discriminants_witness :
    (0 ≤ (MakePlatformType (fun _ => true) "kvm").1 ∧
      (MakePlatformType (fun _ => true) "kvm").1 ≤ 1) ∧
    (∃ s, MakePlatformType (fun _ => true) s = (1, none)) ∧
    (0 ≤ (MakeFileAccessType (fun _ => true) "direct").1 ∧
      (MakeFileAccessType (fun _ => true) "direct").1 ≤ 1) ∧
    (∃ s, MakeFileAccessType (fun _ => true) s = (1, none)) ∧
    (0 ≤ (MakeNetworkType (fun _ => true) "none").1 ∧
      (MakeNetworkType (fun _ => true) "none").1 ≤ 2) ∧
    (∃ s, MakeNetworkType (fun _ => true) s = (2, none)) :=
  ⟨(C8_valid_discriminants (fun _ => true)).1.1 "kvm" rfl,
   (C8_valid_discriminants (fun _ => true)).1.2.1 1 (by decide),
   (C8_valid_discriminants (fun _ => true)).2.1.1 "direct" rfl,
   (C8_valid_discriminants (fun _ => true)).2.1.2.1 1 (by decide),
   (C8_valid_discriminants (fun _ => true)).2.2.1 "none" rfl,
   (C8_valid_discriminants (fun _ => true)).2.2.2.1 2 (by decide)⟩

/-! ## Quoting of plain strings -/

theorem toNat_ne_of_ne (c : Char) (n : Nat) (h : c ≠ Char.ofNat n) : c.toNat ≠ n := by
  intro e
  apply h
  rw [← e, Char.ofNat_toNat]

theorem appendEscapedRune_plain (wide : Nat → Bool) (c : Char)
    (h : plainASCII c = true) : appendEscapedRune wide c.toNat = [c] := by
  simp only [plainASCII, Bool.and_eq_true, decide_eq_true_eq, bne_iff_ne, ne_eq] at h
  obtain ⟨⟨⟨h1, h2⟩, h3⟩, h4⟩ := h
  have n3 : c.toNat ≠ 0x22 := toNat_ne_of_ne c 0x22 h3
  have n4 : c.toNat ≠ 0x5C := toNat_ne_of_ne c 0x5C h4
  have hp : IsPrint wide c.toNat = true := by
    have : c.toNat ≤ 0xFF := by omega
    simp [IsPrint, this, h1, h2]
  simp [appendEscapedRune, n3, n4, hp, Char.ofNat_toNat]

theorem quoteRunes_plain (wide : Nat → Bool) (cs : List Char)
    (h : ∀ c ∈ cs, plainASCII c = true) : quoteRunes wide cs = cs := by
  induction cs with
  | nil => rfl
  | cons c cs ih =>
    have hc : plainASCII c = true := h c (List.mem_cons_self c cs)
    have hcs : ∀ x ∈ cs, plainASCII x = true :=
      fun x hx => h x (List.mem_cons_of_mem c hx)
    simp [quoteRunes, appendEscapedRune_plain wide c hc, ih hcs]

theorem Quote_plain (wide : Nat → Bool) (s : String)
    (h : ∀ c ∈ s.data, plainASCII c = true) : Quote wide s = "\"" ++ s ++ "\"" := by
  apply String.ext
  simp [Quote, quoteRunes_plain wide s.data h, String.data_append]

/-! ## C5: format of the error message -/

/-- C5: for a rejected string `s` made only of printable ASCII characters other
than the double quote and the backslash, the error text of `MakeNetworkType` is
exactly `invalid network type "s"`, that of `MakePlatformType` is exactly
`invalid platform type "s"` and that of `MakeFileAccessType` is exactly
`invalid file access type "s"`. -/
theorem C5_error_message_format (wide : Nat → Bool) (s : String)
    (hs : ∀ c ∈ s.data, plainASCII c = true) :
    (s ∉ networkLiterals →
      (MakeNetworkType wide s).2 = some ("invalid network type \"" ++ s ++ "\"")) ∧
    (s ∉ platformLiterals →
      (MakePlatformType wide s).2 = some ("invalid platform type \"" ++ s ++ "\"")) ∧
    (s ∉ fileAccessLiterals →
      (MakeFileAccessType wide s).2 =
        some ("invalid file access type \"" ++ s ++ "\"")) := by
  have hq := Quote_plain wide s hs
  refine ⟨fun h => ?_, fun h => ?_, fun h => ?_⟩
  · rw [MakeNetworkType_rejected wide s h, hq]
    exact congrArg some (by rw [← String.append_assoc, ← String.append_assoc]; rfl)
  · rw [MakePlatformType_rejected wide s h, hq]
    exact congrArg some (by rw [← String.append_assoc, ← String.append_assoc]; rfl)
  · rw [MakeFileAccessType_rejected wide s h, hq]
    exact congrArg some (by rw [← String.append_assoc, ← String.append_assoc]; rfl)

/-- C5 at the string `"HOST"`: `MakeNetworkType("HOST")` fails with
`invalid network type "HOST"`, and likewise for the two other functions. -/
theorem C5_error_message_format_witness :
    (∀ c ∈ "HOST".data, plainASCII c = true) ∧
    "HOST" ∉ networkLiterals ∧
    (MakeNetworkType (fun _ => false) "HOST").2 =
      some "invalid network type \"HOST\"" ∧
    (MakePlatformType (fun _ => false) "HOST").2 =
      some "invalid platform type \"HOST\"" ∧
    (MakeFileAccessType (fun _ => false) "HOST").2 =
      some "invalid file access type \"HOST\"" :=
  ⟨by decide, by decide,
   (C5_error_message_format (fun _ => false) "HOST" (by decide)).1 (by decide),
   (C5_error_message_format (fun _ => false) "HOST" (by decide)).2.1 (by decide),
   (C5_error_message_format (fun _ => false) "HOST" (by decide)).2.2 (by decide)⟩

/-! ## Quoting loses no information -/

theorem hexVal_hexDigit (n : Nat) (h : n < 16) : hexVal (hexDigit n) = n := by
  interval_cases n <;> rfl

theorem ValidRune_toNat (c : Char) : ValidRune c.toNat = true := by
  have h := c.valid
  simp only [UInt32.isValidChar, Nat.isValidChar] at h
  have e : c.toNat = c.val.toNat := rfl
  unfold ValidRune
  split_ifs <;> first | rfl | omega

theorem unescapeRune_appendEscapedRune (wide : Nat → Bool) (c : Char)
    (rest : List Char) :
    unescapeRune (appendEscapedRune wide c.toNat ++ rest) = some (c.toNat, rest) := by
  have hv := ValidRune_toNat c
  have hlt : c.toNat < 0x110000 := by
    have h := c.valid
    simp only [UInt32.isValidChar, Nat.isValidChar] at h
    have e : c.toNat = c.val.toNat := rfl
    omega
  have hbs : c.toNat ≠ 0x5C → c ≠ '\\' := by
    intro h e
    apply h
    rw [e]
    rfl
  unfold appendEscapedRune
  by_cases h1 : c.toNat = 0x22 ∨ c.toNat = 0x5C
  · rw [if_pos h1]
    rcases h1 with h | h <;> rw [h] <;> rfl
  rw [if_neg h1]
  by_cases h2 : IsPrint wide c.toNat = true
  · rw [if_pos h2]
    have := hbs (fun e => h1 (Or.inr e))
    simp [unescapeRune, Char.ofNat_toNat, this]
  rw [if_neg h2]
  by_cases h3 : c.toNat = 0x07
  · rw [if_pos h3, h3]; rfl
  rw [if_neg h3]
  by_cases h4 : c.toNat = 0x08
  · rw [if_pos h4, h4]; rfl
  rw [if_neg h4]
  by_cases h5 : c.toNat = 0x0C
  · rw [if_pos h5, h5]; rfl
  rw [if_neg h5]
  by_cases h6 : c.toNat = 0x0A
  · rw [if_pos h6, h6]; rfl
  rw [if_neg h6]
  by_cases h7 : c.toNat = 0x0D
  · rw [if_pos h7, h7]; rfl
  rw [if_neg h7]
  by_cases h8 : c.toNat = 0x09
  · rw [if_pos h8, h8]; rfl
  rw [if_neg h8]
  by_cases h9 : c.toNat = 0x0B
  · rw [if_pos h9, h9]; rfl
  rw [if_neg h9]
  by_cases h10 : c.toNat < 0x20 ∨ c.toNat = 0x7F
  · rw [if_pos h10]
    have a1 : c.toNat % 256 / 16 < 16 := by omega
    have a2 : c.toNat % 16 < 16 := by omega
    simp only [unescapeRune, List.cons_append, List.nil_append, ne_eq, not_true_eq_false,
      if_false, hexVal_hexDigit _ a1, hexVal_hexDigit _ a2]
    simp
    omega
  rw [if_neg h10]
  have h11 : ¬ ((!ValidRune c.toNat) = true) := by simp [hv]
  rw [if_neg h11]
  by_cases h12 : c.toNat < 0x10000
  · rw [if_pos h12]
    have a1 : c.toNat / 4096 % 16 < 16 := by omega
    have a2 : c.toNat / 256 % 16 < 16 := by omega
    have a3 : c.toNat / 16 % 16 < 16 := by omega
    have a4 : c.toNat % 16 < 16 := by omega
    simp only [unescapeRune, List.cons_append, List.nil_append, ne_eq, not_true_eq_false,
      if_false, hexVal_hexDigit _ a1, hexVal_hexDigit _ a2, hexVal_hexDigit _ a3,
      hexVal_hexDigit _ a4]
    simp
    omega
  rw [if_neg h12]
  have a1 : c.toNat / 268435456 % 16 < 16 := by omega
  have a2 : c.toNat / 16777216 % 16 < 16 := by omega
  have a3 : c.toNat / 1048576 % 16 < 16 := by omega
  have a4 : c.toNat / 65536 % 16 < 16 := by omega
  have a5 : c.toNat / 4096 % 16 < 16 := by omega
  have a6 : c.toNat / 256 % 16 < 16 := by omega
  have a7 : c.toNat / 16 % 16 < 16 := by omega
  have a8 : c.toNat % 16 < 16 := by omega
  simp only [unescapeRune, List.cons_append, List.nil_append, ne_eq, not_true_eq_false,
    if_false, hexVal_hexDigit _ a1, hexVal_hexDigit _ a2, hexVal_hexDigit _ a3,
    hexVal_hexDigit _ a4, hexVal_hexDigit _ a5, hexVal_hexDigit _ a6,
    hexVal_hexDigit _ a7, hexVal_hexDigit _ a8]
  simp
  omega

theorem toNat_injective (c d : Char) (h : c.toNat = d.toNat) : c = d := by
  rw [← Char.ofNat_toNat c, ← Char.ofNat_toNat d, h]

theorem quoteRunes_injective (wide : Nat → Bool) :
    ∀ cs ds : List Char, quoteRunes wide cs = quoteRunes wide ds → cs = ds := by
  intro cs
  induction cs with
  | nil =>
    intro ds h
    cases ds with
    | nil => rfl
    | cons d ds =>
      have h' := congrArg unescapeRune h
      rw [quoteRunes, quoteRunes, unescapeRune_appendEscapedRune] at h'
      simp [unescapeRune] at h'
  | cons c cs ih =>
    intro ds h
    cases ds with
    | nil =>
      have h' := congrArg unescapeRune h
      rw [quoteRunes, quoteRunes, unescapeRune_appendEscapedRune] at h'
      simp [unescapeRune] at h'
    | cons d ds =>
      have h' := congrArg unescapeRune h
      rw [quoteRunes, quoteRunes, unescapeRune_appendEscapedRune,
        unescapeRune_appendEscapedRune] at h'
      simp only [Option.some.injEq, Prod.mk.injEq] at h'
      rw [toNat_injective c d h'.1, ih ds h'.2]

theorem Quote_injective (wide : Nat → Bool) (s t : String)
    (h : Quote wide s = Quote wide t) : s = t := by
  have h' := congrArg String.data h
  simp only [Quote, List.cons.injEq, true_and] at h'
  exact String.ext (quoteRunes_injective wide _ _ (List.append_cancel_right h'))

theorem message_injective (wide : Nat → Bool) (pre s t : String)
    (h : pre ++ Quote wide s = pre ++ Quote wide t) : s = t := by
  have h' := congrArg String.data h
  simp only [String.data_append] at h'
  exact Quote_injective wide s t (String.ext (List.append_cancel_left h'))

theorem infix_message_left (name pre q : String) (h : name.data <:+: pre.data) :
    name.data <:+: (pre ++ q).data := by
  rw [String.data_append]
  exact List.IsInfix.trans h (List.infix_append' [] pre.data q.data)

theorem infix_message_right (pre q : String) : q.data <:+: (pre ++ q).data := by
  rw [String.data_append]
  exact (List.suffix_append pre.data q.data).isInfix

theorem infix_Quote_plain (wide : Nat → Bool) (s : String)
    (h : ∀ c ∈ s.data, plainASCII c = true) : s.data <:+: (Quote wide s).data := by
  rw [Quote_plain wide s h]
  exact ⟨['"'], ['"'], by simp [String.data_append]⟩

theorem platform_message_ne_fileAccess (x y : String) :
    "invalid platform type " ++ x ≠ "invalid file access type " ++ y := by
  intro h
  have h' := congrArg String.data h
  simp [String.data_append] at h'

theorem platform_message_ne_network (x y : String) :
    "invalid platform type " ++ x ≠ "invalid network type " ++ y := by
  intro h
  have h' := congrArg String.data h
  simp [String.data_append] at h'

theorem fileAccess_message_ne_network (x y : String) :
    "invalid file access type " ++ x ≠ "invalid network type " ++ y := by
  intro h
  have h' := congrArg String.data h
  simp [String.data_append] at h'

theorem MakePlatformType_message (wide : Nat → Bool) (t msg : String)
    (h : (MakePlatformType wide t).2 = some msg) :
    t ∉ platformLiterals ∧ msg = "invalid platform type " ++ Quote wide t := by
  have hn : t ∉ platformLiterals :=
    (MakePlatformType_error_iff wide t).mp (by simp [h])
  rw [MakePlatformType_rejected wide t hn] at h
  exact ⟨hn, (Option.some.inj h).symm⟩

theorem MakeFileAccessType_message (wide : Nat → Bool) (t msg : String)
    (h : (MakeFileAccessType wide t).2 = some msg) :
    t ∉ fileAccessLiterals ∧ msg = "invalid file access type " ++ Quote wide t := by
  have hn : t ∉ fileAccessLiterals :=
    (MakeFileAccessType_error_iff wide t).mp (by simp [h])
  rw [MakeFileAccessType_rejected wide t hn] at h
  exact ⟨hn, (Option.some.inj h).symm⟩

theorem MakeNetworkType_message (wide : Nat → Bool) (t msg : String)
    (h : (MakeNetworkType wide t).2 = some msg) :
    t ∉ networkLiterals ∧ msg = "invalid network type " ++ Quote wide t := by
  have hn : t ∉ networkLiterals :=
    (MakeNetworkType_error_iff wide t).mp (by simp [h])
  rw [MakeNetworkType_rejected wide t hn] at h
  exact ⟨hn, (Option.some.inj h).symm⟩

/-! ## C4: what the error message embeds -/

/-- C4, as stated, fails: the input `"kvm\n"` (the literal followed by a line
feed) is rejected by `MakePlatformType` with the text
`invalid platform type "kvm\n"`, in which the line feed is written as a
backslash and the letter `n`; the raw input is not a substring of the text. -/
theorem C4_counterexample :
    "kvm\n" ∉ platformLiterals ∧
    (MakePlatformType (fun _ => true) "kvm\n").2 =
      some "invalid platform type \"kvm\\n\"" ∧
    ¬ ("kvm\n".data <:+: "invalid platform type \"kvm\\n\"".data) := by
  refine ⟨by decide, rfl, by decide⟩

/-- C4, amended: for a string `s` that is not a declared literal, the error text
of each parse function is the phrase `invalid <name> ` followed by the Go-quoted
form of `s` (`%q`, that is `strconv.Quote`), where `<name>` is `platform type`,
`file access type` or `network type`. The text contains that name and the quoted
form of `s`; it contains `s` itself when `s` is made of printable ASCII
characters other than the double quote and the backslash. The input and the
enumeration can be recovered from the text: two rejected inputs of one parse
function with the same text are equal, and no result of another parse function
carries the same text. -/
theorem C4_error_message_embeds_quoted_input (wide : Nat → Bool) (s t : String) :
    (s ∉ platformLiterals →
      ∃ msg, (MakePlatformType wide s).2 = some msg ∧
        msg = "invalid platform type " ++ Quote wide s ∧
        "platform type".data <:+: msg.data ∧
        (Quote wide s).data <:+: msg.data ∧
        ((∀ c ∈ s.data, plainASCII c = true) → s.data <:+: msg.data) ∧
        ((MakePlatformType wide t).2 = some msg → t = s) ∧
        (MakeFileAccessType wide t).2 ≠ some msg ∧
        (MakeNetworkType wide t).2 ≠ some msg) ∧
    (s ∉ fileAccessLiterals →
      ∃ msg, (MakeFileAccessType wide s).2 = some msg ∧
        msg = "invalid file access type " ++ Quote wide s ∧
        "file access type".data <:+: msg.data ∧
        (Quote wide s).data <:+: msg.data ∧
        ((∀ c ∈ s.data, plainASCII c = true) → s.data <:+: msg.data) ∧
        ((MakeFileAccessType wide t).2 = some msg → t = s) ∧
        (MakePlatformType wide t).2 ≠ some msg ∧
        (MakeNetworkType wide t).2 ≠ some msg) ∧
    (s ∉ networkLiterals →
      ∃ msg, (MakeNetworkType wide s).2 = some msg ∧
        msg = "invalid network type " ++ Quote wide s ∧
        "network type".data <:+: msg.data ∧
        (Quote wide s).data <:+: msg.data ∧
        ((∀ c ∈ s.data, plainASCII c = true) → s.data <:+: msg.data) ∧
        ((MakeNetworkType wide t).2 = some msg → t = s) ∧
        (MakePlatformType wide t).2 ≠ some msg ∧
        (MakeFileAccessType wide t).2 ≠ some msg) := by
  refine ⟨fun hs => ?_, fun hs => ?_, fun hs => ?_⟩
  · refine ⟨_, by rw [MakePlatformType_rejected wide s hs], rfl,
      infix_message_left _ _ _ (by decide), infix_message_right _ _,
      fun hp => (infix_Quote_plain wide s hp).trans (infix_message_right _ _),
      fun ht => ?_, fun ht => ?_, fun ht => ?_⟩
    · exact (message_injective wide _ s t (MakePlatformType_message wide t _ ht).2).symm
    · exact platform_message_ne_fileAccess _ _ (MakeFileAccessType_message wide t _ ht).2
    · exact platform_message_ne_network _ _ (MakeNetworkType_message wide t _ ht).2
  · refine ⟨_, by rw [MakeFileAccessType_rejected wide s hs], rfl,
      infix_message_left _ _ _ (by decide), infix_message_right _ _,
      fun hp => (infix_Quote_plain wide s hp).trans (infix_message_right _ _),
      fun ht => ?_, fun ht => ?_, fun ht => ?_⟩
    · exact (message_injective wide _ s t (MakeFileAccessType_message wide t _ ht).2).symm
    · exact platform_message_ne_fileAccess _ _
        (MakePlatformType_message wide t _ ht).2.symm
    · exact fileAccess_message_ne_network _ _ (MakeNetworkType_message wide t _ ht).2
  · refine ⟨_, by rw [MakeNetworkType_rejected wide s hs], rfl,
      infix_message_left _ _ _ (by decide), infix_message_right _ _,
      fun hp => (infix_Quote_plain wide s hp).trans (infix_message_right _ _),
      fun ht => ?_, fun ht => ?_, fun ht => ?_⟩
    · exact (message_injective wide _ s t (MakeNetworkType_message wide t _ ht).2).symm
    · exact platform_message_ne_network _ _
        (MakePlatformType_message wide t _ ht).2.symm
    · exact fileAccess_message_ne_network _ _
        (MakeFileAccessType_message wide t _ ht).2.symm

/-- C4, amended, at the input `"kvm\n"` of `MakePlatformType`, at `"a\"b"` of
`MakeFileAccessType` and at `"HOST"` of `MakeNetworkType`. -/
theorem C4_error_message_embeds_quoted_input_witness :
    "kvm\n" ∉ platformLiterals ∧
    (∃ msg, (MakePlatformType (fun _ => true) "kvm\n").2 = some msg ∧
        msg = "invalid platform type " ++ Quote (fun _ => true) "kvm\n" ∧
        "platform type".data <:+: msg.data ∧
        (Quote (fun _ => true) "kvm\n").data <:+: msg.data ∧
        ((∀ c ∈ "kvm\n".data, plainASCII c = true) → "kvm\n".data <:+: msg.data) ∧
        ((MakePlatformType (fun _ => true) "kvm").2 = some msg → "kvm" = "kvm\n") ∧
        (MakeFileAccessType (fun _ => true) "kvm").2 ≠ some msg ∧
        (MakeNetworkType (fun _ => true) "kvm").2 ≠ some msg) ∧
    "a\"b" ∉ fileAccessLiterals ∧
    (∃ msg, (MakeFileAccessType (fun _ => true) "a\"b").2 = some msg ∧
        msg = "invalid file access type " ++ Quote (fun _ => true) "a\"b" ∧
        "file access type".data <:+: msg.data ∧
        (Quote (fun _ => true) "a\"b").data <:+: msg.data ∧
        ((∀ c ∈ "a\"b".data, plainASCII c = true) → "a\"b".data <:+: msg.data) ∧
        ((MakeFileAccessType (fun _ => true) "ab").2 = some msg → "ab" = "a\"b") ∧
        (MakePlatformType (fun _ => true) "ab").2 ≠ some msg ∧
        (MakeNetworkType (fun _ => true) "ab").2 ≠ some msg) ∧
    "HOST" ∉ networkLiterals ∧
    (∃ msg, (MakeNetworkType (fun _ => true) "HOST").2 = some msg ∧
        msg = "invalid network type " ++ Quote (fun _ => true) "HOST" ∧
        "network type".data <:+: msg.data ∧
        (Quote (fun _ => true) "HOST").data <:+: msg.data ∧
        ((∀ c ∈ "HOST".data, plainASCII c = true) → "HOST".data <:+: msg.data) ∧
        ((MakeNetworkType (fun _ => true) "host").2 = some msg → "host" = "HOST") ∧
        (MakePlatformType (fun _ => true) "host").2 ≠ some msg ∧
        (MakeFileAccessType (fun _ => true) "host").2 ≠ some msg) :=
  ⟨by decide,
   (C4_error_message_embeds_quoted_input (fun _ => true) "kvm\n" "kvm").1 (by decide),
   by decide,
   (C4_error_message_embeds_quoted_input (fun _ => true) "a\"b" "ab").2.1 (by decide),
   by decide,
   (C4_error_message_embeds_quoted_input (fun _ => true) "HOST" "host").2.2 (by decide)⟩

/-! ## C9: what the enumeration fields of `Config` can hold -/

theorem MakePlatformType_value_iff (wide : Nat → Bool) (d : Int) :
    (∃ s, MakePlatformType wide s = (d, none)) ↔ 0 ≤ d ∧ d ≤ 1 := by
  constructor
  · rintro ⟨s, hs⟩
    have hm : s ∈ platformLiterals := by
      by_contra hn
      exact (MakePlatformType_error_iff wide s).mpr hn (by rw [hs])
    rcases MakePlatformType_accepted wide s hm with ⟨e, _⟩ | ⟨e, _⟩ <;>
      · rw [e] at hs
        have hd := (Prod.mk.inj hs).1
        subst hd
        decide
  · intro hd
    have hd' : d = 0 ∨ d = 1 := by omega
    rcases hd' with rfl | rfl
    · exact ⟨"ptrace", rfl⟩
    · exact ⟨"kvm", rfl⟩

theorem MakeFileAccessType_value_iff (wide : Nat → Bool) (d : Int) :
    (∃ s, MakeFileAccessType wide s = (d, none)) ↔ 0 ≤ d ∧ d ≤ 1 := by
  constructor
  · rintro ⟨s, hs⟩
    have hm : s ∈ fileAccessLiterals := by
      by_contra hn
      exact (MakeFileAccessType_error_iff wide s).mpr hn (by rw [hs])
    rcases MakeFileAccessType_accepted wide s hm with ⟨e, _⟩ | ⟨e, _⟩ <;>
      · rw [e] at hs
        have hd := (Prod.mk.inj hs).1
        subst hd
        decide
  · intro hd
    have hd' : d = 0 ∨ d = 1 := by omega
    rcases hd' with rfl | rfl
    · exact ⟨"proxy", rfl⟩
    · exact ⟨"direct", rfl⟩

theorem MakeNetworkType_value_iff (wide : Nat → Bool) (d : Int) :
    (∃ s, MakeNetworkType wide s = (d, none)) ↔ 0 ≤ d ∧ d ≤ 2 := by
  constructor
  · rintro ⟨s, hs⟩
    have hm : s ∈ networkLiterals := by
      by_contra hn
      exact (MakeNetworkType_error_iff wide s).mpr hn (by rw [hs])
    rcases MakeNetworkType_accepted wide s hm with ⟨e, _⟩ | ⟨e, _⟩ | ⟨e, _⟩ <;>
      · rw [e] at hs
        have hd := (Prod.mk.inj hs).1
        subst hd
        decide
  · intro hd
    have hd' : d = 0 ∨ d = 1 ∨ d = 2 := by omega
    rcases hd' with rfl | rfl | rfl
    · exact ⟨"sandbox", rfl⟩
    · exact ⟨"host", rfl⟩
    · exact ⟨"none", rfl⟩

/-- C9, as stated, fails: the `Config` whose fields `Platform`, `FileAccess` and
`Network` hold the integers `2`, `-1` and `7` (every other field zero) is a value
of the type, and no string is parsed to any of the three values, whatever the
printability table. -/
theorem C9_counterexample :
    (¬ ∃ wide s, MakePlatformType wide s =
      ((Config.mk "" (-1) false 7 false 2 false [] 0 false).Platform, none)) ∧
    (¬ ∃ wide s, MakeFileAccessType wide s =
      ((Config.mk "" (-1) false 7 false 2 false [] 0 false).FileAccess, none)) ∧
    (¬ ∃ wide s, MakeNetworkType wide s =
      ((Config.mk "" (-1) false 7 false 2 false [] 0 false).Network, none)) := by
  refine ⟨?_, ?_, ?_⟩
  · rintro ⟨wide, hs⟩
    have := (MakePlatformType_value_iff wide _).mp hs
    simp at this
  · rintro ⟨wide, hs⟩
    have := (MakeFileAccessType_value_iff wide _).mp hs
    simp at this
  · rintro ⟨wide, hs⟩
    have := (MakeNetworkType_value_iff wide _).mp hs
    simp at this

/-- C9, amended: `Config` does no validation and its enumeration fields are
plain integers, so a `Config` can hold any three integers in `Platform`,
`FileAccess` and `Network`; for every `Config`, the field `Platform` (and
`FileAccess`) is a value returned with a nil error by its parse function for
some string exactly when it lies in `0 .. 1`, and the field `Network` exactly
when it lies in `0 .. 2`. -/
theorem C9_config_fields_parse_produced_iff_in_range (wide : Nat → Bool) (c : Config) :
    ((∃ s, MakePlatformType wide s = (c.Platform, none)) ↔
      0 ≤ c.Platform ∧ c.Platform ≤ 1) ∧
    ((∃ s, MakeFileAccessType wide s = (c.FileAccess, none)) ↔
      0 ≤ c.FileAccess ∧ c.FileAccess ≤ 1) ∧
    ((∃ s, MakeNetworkType wide s = (c.Network, none)) ↔
      0 ≤ c.Network ∧ c.Network ≤ 2) ∧
    (∀ p f n : Int, ∃ c' : Config,
      c'.Platform = p ∧ c'.FileAccess = f ∧ c'.Network = n ∧
      c'.RootDir = c.RootDir ∧ c'.Overlay = c.Overlay ∧
      c'.LogPackets = c.LogPackets ∧ c'.Strace = c.Strace ∧
      c'.StraceSyscalls = c.StraceSyscalls ∧ c'.StraceLogSize = c.StraceLogSize ∧
      c'.DisableSeccomp = c.DisableSeccomp) :=
  ⟨MakePlatformType_value_iff wide c.Platform,
   MakeFileAccessType_value_iff wide c.FileAccess,
   MakeNetworkType_value_iff wide c.Network,
   fun p f n => ⟨⟨c.RootDir, f, c.Overlay, n, c.LogPackets, p, c.Strace,
     c.StraceSyscalls, c.StraceLogSize, c.DisableSeccomp⟩,
     rfl, rfl, rfl, rfl, rfl, rfl, rfl, rfl, rfl, rfl⟩⟩

/-! ## C10: the fields of `Config` are stored as given -/

/-- C10: a `Config` built with `Strace = true`, an empty `StraceSyscalls` and
`StraceLogSize = 0` reads back exactly so, as does a copy of it, with every other
field as given, and it differs from the `Config` that agrees with it on every
field but has `Strace = false`. More generally the constructor stores each of the
ten fields unchanged, a copy is equal to the original, and two values are equal
only if they agree on all ten fields. -/
theorem C10_strace_state_preserved (rootDir : String) (fa : FileAccessType)
    (ov : Bool) (net : NetworkType) (lp : Bool) (pl : PlatformType) (st : Bool)
    (sys : List String) (sz : Nat) (ds : Bool) :
    ((Config.mk rootDir fa ov net lp pl true [] 0 ds).Strace = true ∧
      (Config.mk rootDir fa ov net lp pl true [] 0 ds).StraceSyscalls = [] ∧
      (Config.mk rootDir fa ov net lp pl true [] 0 ds).StraceLogSize = 0) ∧
    ((Config.mk rootDir fa ov net lp pl true [] 0 ds).copy.Strace = true ∧
      (Config.mk rootDir fa ov net lp pl true [] 0 ds).copy.StraceSyscalls = [] ∧
      (Config.mk rootDir fa ov net lp pl true [] 0 ds).copy.StraceLogSize = 0) ∧
    Config.mk rootDir fa ov net lp pl true [] 0 ds ≠
      Config.mk rootDir fa ov net lp pl false [] 0 ds ∧
    (Config.mk rootDir fa ov net lp pl true [] 0 ds).copy ≠
      Config.mk rootDir fa ov net lp pl false [] 0 ds ∧
    ((Config.mk rootDir fa ov net lp pl st sys sz ds).RootDir = rootDir ∧
      (Config.mk rootDir fa ov net lp pl st sys sz ds).FileAccess = fa ∧
      (Config.mk rootDir fa ov net lp pl st sys sz ds).Overlay = ov ∧
      (Config.mk rootDir fa ov net lp pl st sys sz ds).Network = net ∧
      (Config.mk rootDir fa ov net lp pl st sys sz ds).LogPackets = lp ∧
      (Config.mk rootDir fa ov net lp pl st sys sz ds).Platform = pl ∧
      (Config.mk rootDir fa ov net lp pl st sys sz ds).Strace = st ∧
      (Config.mk rootDir fa ov net lp pl st sys sz ds).StraceSyscalls = sys ∧
      (Config.mk rootDir fa ov net lp pl st sys sz ds).StraceLogSize = sz ∧
      (Config.mk rootDir fa ov net lp pl st sys sz ds).DisableSeccomp = ds) ∧
    (Config.mk rootDir fa ov net lp pl st sys sz ds).copy =
      Config.mk rootDir fa ov net lp pl st sys sz ds ∧
    (∀ c : Config, c = Config.mk rootDir fa ov net lp pl st sys sz ds ↔
      c.RootDir = rootDir ∧ c.FileAccess = fa ∧ c.Overlay = ov ∧ c.Network = net ∧
      c.LogPackets = lp ∧ c.Platform = pl ∧ c.Strace = st ∧ c.StraceSyscalls = sys ∧
      c.StraceLogSize = sz ∧ c.DisableSeccomp = ds) := by
  refine ⟨⟨rfl, rfl, rfl⟩, ⟨rfl, rfl, rfl⟩, ?_, ?_,
    ⟨rfl, rfl, rfl, rfl, rfl, rfl, rfl, rfl, rfl, rfl⟩, rfl, ?_⟩
  · intro h
    have := congrArg Config.Strace h
    simp at this
  · intro h
    have := congrArg Config.Strace h
    simp [Config.copy] at this
  · intro c
    cases c
    simp

/-! ## The decimal rendering loses no information -/

theorem toDigitsCore_acc (fuel : Nat) :
    ∀ (n : Nat) (ds : List Char),
      Nat.toDigitsCore 10 fuel n ds = Nat.toDigitsCore 10 fuel n [] ++ ds := by
  induction fuel with
  | zero => intro n ds; rfl
  | succ f ih =>
    intro n ds
    simp only [Nat.toDigitsCore]
    by_cases h : n / 10 = 0
    · simp [h]
    · rw [if_neg h, if_neg h, ih (n / 10) (Nat.digitChar (n % 10) :: ds),
        ih (n / 10) [Nat.digitChar (n % 10)]]
      simp

theorem digitChar_val (n : Nat) (h : n < 10) : (Nat.digitChar n).toNat - 48 = n := by
  interval_cases n <;> rfl

theorem digitChar_ne_minus (n : Nat) (h : n < 10) : Nat.digitChar n ≠ '-' := by
  interval_cases n <;> decide

theorem digitsVal_append_singleton (l : List Char) (c : Char) :
    digitsVal (l ++ [c]) = 10 * digitsVal l + (c.toNat - 48) := by
  simp [digitsVal, List.foldl_append]

theorem digitsVal_toDigitsCore (fuel : Nat) :
    ∀ n : Nat, n < fuel → digitsVal (Nat.toDigitsCore 10 fuel n []) = n := by
  induction fuel with
  | zero => intro n h; omega
  | succ f ih =>
    intro n hn
    simp only [Nat.toDigitsCore]
    by_cases h : n / 10 = 0
    · rw [if_pos h]
      have hlt : n < 10 := by omega
      have hm : n % 10 = n := Nat.mod_eq_of_lt hlt
      rw [hm]
      simp [digitsVal, digitChar_val n hlt]
    · rw [if_neg h, toDigitsCore_acc f (n / 10) [Nat.digitChar (n % 10)],
        digitsVal_append_singleton, ih (n / 10) (by omega),
        digitChar_val (n % 10) (Nat.mod_lt n (by decide))]
      omega

theorem toDigitsCore_no_minus (fuel : Nat) :
    ∀ (n : Nat) (ds : List Char), (∀ c ∈ ds, c ≠ '-') →
      ∀ c ∈ Nat.toDigitsCore 10 fuel n ds, c ≠ '-' := by
  induction fuel with
  | zero => intro n ds h; exact h
  | succ f ih =>
    intro n ds hds
    have hcons : ∀ c ∈ Nat.digitChar (n % 10) :: ds, c ≠ '-' := by
      intro c hc
      rcases List.mem_cons.mp hc with rfl | hc
      · exact digitChar_ne_minus _ (Nat.mod_lt n (by decide))
      · exact hds c hc
    simp only [Nat.toDigitsCore]
    by_cases h : n / 10 = 0
    · rw [if_pos h]; exact hcons
    · rw [if_neg h]; exact ih _ _ hcons

theorem repr_injective (a b : Nat) (h : Nat.repr a = Nat.repr b) : a = b := by
  have h' : Nat.toDigits 10 a = Nat.toDigits 10 b := congrArg String.data h
  have ha := digitsVal_toDigitsCore (a + 1) a (Nat.lt_succ_self a)
  have hb := digitsVal_toDigitsCore (b + 1) b (Nat.lt_succ_self b)
  unfold Nat.toDigits at h'
  rw [← ha, ← hb, h']

theorem repr_no_minus (a : Nat) : ∀ c ∈ (Nat.repr a).data, c ≠ '-' :=
  toDigitsCore_no_minus (a + 1) a [] (by simp)

theorem fmtInteger_injective (a b : Int) (h : fmtInteger a = fmtInteger b) : a = b := by
  unfold fmtInteger at h
  by_cases ha : a < 0 <;> by_cases hb : b < 0
  · rw [if_pos ha, if_pos hb] at h
    have h' := congrArg String.data h
    simp only [String.data_append, List.append_cancel_left_eq] at h'
    have := repr_injective _ _ (String.ext h')
    omega
  · rw [if_pos ha, if_neg hb] at h
    have h' := congrArg String.data h
    simp only [String.data_append] at h'
    have hm : '-' ∈ (Nat.repr b.natAbs).data := by
      rw [← h']
      exact List.mem_append_left _ (by decide)
    exact absurd rfl (repr_no_minus _ _ hm)
  · rw [if_neg ha, if_pos hb] at h
    have h' := congrArg String.data h
    simp only [String.data_append] at h'
    have hm : '-' ∈ (Nat.repr a.natAbs).data := by
      rw [h']
      exact List.mem_append_left _ (by decide)
    exact absurd rfl (repr_no_minus _ _ hm)
  · rw [if_neg ha, if_neg hb] at h
    have := repr_injective _ _ h
    omega

/-! ## The placeholder against the literals and against itself -/

theorem unknown_not_mem_platformLiterals (x : String) :
    "unknown(" ++ x ++ ")" ∉ platformLiterals := by
  intro hm
  simp only [platformLiterals, List.mem_cons, List.mem_singleton, List.mem_nil_iff,
    or_false] at hm
  rcases hm with hm | hm <;> exact unknown_not_literal _ _ (by decide) hm

theorem unknown_not_mem_fileAccessLiterals (x : String) :
    "unknown(" ++ x ++ ")" ∉ fileAccessLiterals := by
  intro hm
  simp only [fileAccessLiterals, List.mem_cons, List.mem_singleton, List.mem_nil_iff,
    or_false] at hm
  rcases hm with hm | hm <;> exact unknown_not_literal _ _ (by decide) hm

theorem unknown_not_mem_networkLiterals (x : String) :
    "unknown(" ++ x ++ ")" ∉ networkLiterals := by
  intro hm
  simp only [networkLiterals, List.mem_cons, List.mem_singleton, List.mem_nil_iff,
    or_false] at hm
  rcases hm with hm | hm | hm <;> exact unknown_not_literal _ _ (by decide) hm

theorem unknown_injective (x y : String)
    (h : "unknown(" ++ x ++ ")" = "unknown(" ++ y ++ ")") : x = y := by
  have h' := congrArg String.data h
  rw [unknown_data, unknown_data] at h'
  simp only [List.cons.injEq, true_and] at h'
  exact String.ext (List.append_cancel_right h')

theorem placeholder_injective (a b : Int)
    (h : "unknown(" ++ fmtInteger a ++ ")" = "unknown(" ++ fmtInteger b ++ ")") :
    a = b :=
  fmtInteger_injective a b (unknown_injective _ _ h)

/-! ## C11: parse after render -/

/-- C11: for each enumeration and every integer discriminant `d`, the parse
function applied to `String()` of `d` returns `(d, nil)` when `d` lies in
`0 .. variantCount-1` and returns a non-nil error when `d` lies outside (the
placeholder `unknown(<d>)` is not accepted as a literal). Together with the
converse direction on the literals (a literal parses to a value of the range
whose rendering is the literal), the parse and render functions are mutually
inverse between the literal set and `0 .. variantCount-1`. -/
theorem C11_parse_after_render (wide : Nat → Bool) (d : Int) :
    ((0 ≤ d ∧ d ≤ 1 → MakePlatformType wide (PlatformType.String d) = (d, none) ∧
        PlatformType.String d ∈ platformLiterals) ∧
      (d < 0 ∨ 2 ≤ d → (MakePlatformType wide (PlatformType.String d)).2 ≠ none) ∧
      (∀ s ∈ platformLiterals, (MakePlatformType wide s).2 = none ∧
        (0 ≤ (MakePlatformType wide s).1 ∧ (MakePlatformType wide s).1 ≤ 1) ∧
        PlatformType.String (MakePlatformType wide s).1 = s)) ∧
    ((0 ≤ d ∧ d ≤ 1 → MakeFileAccessType wide (FileAccessType.String d) = (d, none) ∧
        FileAccessType.String d ∈ fileAccessLiterals) ∧
      (d < 0 ∨ 2 ≤ d →
        (MakeFileAccessType wide (FileAccessType.String d)).2 ≠ none) ∧
      (∀ s ∈ fileAccessLiterals, (MakeFileAccessType wide s).2 = none ∧
        (0 ≤ (MakeFileAccessType wide s).1 ∧ (MakeFileAccessType wide s).1 ≤ 1) ∧
        FileAccessType.String (MakeFileAccessType wide s).1 = s)) ∧
    ((0 ≤ d ∧ d ≤ 2 → MakeNetworkType wide (NetworkType.String d) = (d, none) ∧
        NetworkType.String d ∈ networkLiterals) ∧
      (d < 0 ∨ 3 ≤ d → (MakeNetworkType wide (NetworkType.String d)).2 ≠ none) ∧
      (∀ s ∈ networkLiterals, (MakeNetworkType wide s).2 = none ∧
        (0 ≤ (MakeNetworkType wide s).1 ∧ (MakeNetworkType wide s).1 ≤ 2) ∧
        NetworkType.String (MakeNetworkType wide s).1 = s)) := by
  refine ⟨⟨?_, ?_, ?_⟩, ⟨?_, ?_, ?_⟩, ⟨?_, ?_, ?_⟩⟩
  · intro hd
    have hd' : d = 0 ∨ d = 1 := by omega
    rcases hd' with rfl | rfl <;> exact ⟨rfl, by decide⟩
  · intro hd
    rw [PlatformType_String_out_of_range d hd]
    exact (MakePlatformType_error_iff wide _).mpr (unknown_not_mem_platformLiterals _)
  · intro s hs
    rcases MakePlatformType_accepted wide s hs with ⟨e, rfl⟩ | ⟨e, rfl⟩ <;>
      exact ⟨rfl, by rw [e]; decide, rfl⟩
  · intro hd
    have hd' : d = 0 ∨ d = 1 := by omega
    rcases hd' with rfl | rfl <;> exact ⟨rfl, by decide⟩
  · intro hd
    rw [FileAccessType_String_out_of_range d hd]
    exact (MakeFileAccessType_error_iff wide _).mpr
      (unknown_not_mem_fileAccessLiterals _)
  · intro s hs
    rcases MakeFileAccessType_accepted wide s hs with ⟨e, rfl⟩ | ⟨e, rfl⟩ <;>
      exact ⟨rfl, by rw [e]; decide, rfl⟩
  · intro hd
    have hd' : d = 0 ∨ d = 1 ∨ d = 2 := by omega
    rcases hd' with rfl | rfl | rfl <;> exact ⟨rfl, by decide⟩
  · intro hd
    rw [NetworkType_String_out_of_range d hd]
    exact (MakeNetworkType_error_iff wide _).mpr (unknown_not_mem_networkLiterals _)
  · intro s hs
    rcases MakeNetworkType_accepted wide s hs with ⟨e, rfl⟩ | ⟨e, rfl⟩ | ⟨e, rfl⟩ <;>
      exact ⟨rfl, by rw [e]; decide, rfl⟩

/-- C11 at the discriminants `1`, `2`, `-1`, `3` and at the literals `"kvm"`,
`"direct"`, `"none"`. -/
theorem C11_parse_after_render_witness :
    (MakePlatformType (fun _ => true) (PlatformType.String 1) = (1, none) ∧
      PlatformType.String 1 ∈ platformLiterals) ∧
    (MakePlatformType (fun _ => true) (PlatformType.String 2)).2 ≠ none ∧
    ((MakePlatformType (fun _ => true) "kvm").2 = none ∧
      (0 ≤ (MakePlatformType (fun _ => true) "kvm").1 ∧
        (MakePlatformType (fun _ => true) "kvm").1 ≤ 1) ∧
      PlatformType.String (MakePlatformType (fun _ => true) "kvm").1 = "kvm") ∧
    (MakeFileAccessType (fun _ => true) (FileAccessType.String 1) = (1, none) ∧
      FileAccessType.String 1 ∈ fileAccessLiterals) ∧
    (MakeFileAccessType (fun _ => true) (FileAccessType.String (-1))).2 ≠ none ∧
    ((MakeFileAccessType (fun _ => true) "direct").2 = none ∧
      (0 ≤ (MakeFileAccessType (fun _ => true) "direct").1 ∧
        (MakeFileAccessType (fun _ => true) "direct").1 ≤ 1) ∧
      FileAccessType.String (MakeFileAccessType (fun _ => true) "direct").1 =
        "direct") ∧
    (MakeNetworkType (fun _ => true) (NetworkType.String 2) = (2, none) ∧
      NetworkType.String 2 ∈ networkLiterals) ∧
    (MakeNetworkType (fun _ => true) (NetworkType.String 3)).2 ≠ none ∧
    ((MakeNetworkType (fun _ => true) "none").2 = none ∧
      (0 ≤ (MakeNetworkType (fun _ => true) "none").1 ∧
        (MakeNetworkType (fun _ => true) "none").1 ≤ 2) ∧
      NetworkType.String (MakeNetworkType (fun _ => true) "none").1 = "none") :=
  ⟨(C11_parse_after_render (fun _ => true) 1).1.1 (by decide),
   (C11_parse_after_render (fun _ => true) 2).1.2.1 (by decide),
   (C11_parse_after_render (fun _ => true) 0).1.2.2 "kvm" (by decide),
   (C11_parse_after_render (fun _ => true) 1).2.1.1 (by decide),
   (C11_parse_after_render (fun _ => true) (-1)).2.1.2.1 (by decide),
   (C11_parse_after_render (fun _ => true) 0).2.1.2.2 "direct" (by decide),
   (C11_parse_after_render (fun _ => true) 2).2.2.1 (by decide),
   (C11_parse_after_render (fun _ => true) 3).2.2.2.1 (by decide),
   (C11_parse_after_render (fun _ => true) 0).2.2.2.2 "none" (by decide)⟩

/-! ## C12: rendering is injective -/

theorem PlatformType_String_injective (a b : Int)
    (h : PlatformType.String a = PlatformType.String b) : a = b := by
  by_cases ha : a < 0 ∨ 2 ≤ a <;> by_cases hb : b < 0 ∨ 2 ≤ b
  · rw [PlatformType_String_out_of_range a ha,
      PlatformType_String_out_of_range b hb] at h
    exact placeholder_injective a b h
  · rw [PlatformType_String_out_of_range a ha] at h
    have hb' : b = 0 ∨ b = 1 := by omega
    rcases hb' with rfl | rfl <;> exact absurd h (unknown_not_literal _ _ (by decide))
  · rw [PlatformType_String_out_of_range b hb] at h
    have ha' : a = 0 ∨ a = 1 := by omega
    rcases ha' with rfl | rfl <;>
      exact absurd h.symm (unknown_not_literal _ _ (by decide))
  · have ha' : a = 0 ∨ a = 1 := by omega
    have hb' : b = 0 ∨ b = 1 := by omega
    rcases ha' with rfl | rfl <;> rcases hb' with rfl | rfl <;>
      first | rfl | exact absurd h (by decide)

theorem FileAccessType_String_injective (a b : Int)
    (h : FileAccessType.String a = FileAccessType.String b) : a = b := by
  by_cases ha : a < 0 ∨ 2 ≤ a <;> by_cases hb : b < 0 ∨ 2 ≤ b
  · rw [FileAccessType_String_out_of_range a ha,
      FileAccessType_String_out_of_range b hb] at h
    exact placeholder_injective a b h
  · rw [FileAccessType_String_out_of_range a ha] at h
    have hb' : b = 0 ∨ b = 1 := by omega
    rcases hb' with rfl | rfl <;> exact absurd h (unknown_not_literal _ _ (by decide))
  · rw [FileAccessType_String_out_of_range b hb] at h
    have ha' : a = 0 ∨ a = 1 := by omega
    rcases ha' with rfl | rfl <;>
      exact absurd h.symm (unknown_not_literal _ _ (by decide))
  · have ha' : a = 0 ∨ a = 1 := by omega
    have hb' : b = 0 ∨ b = 1 := by omega
    rcases ha' with rfl | rfl <;> rcases hb' with rfl | rfl <;>
      first | rfl | exact absurd h (by decide)

theorem NetworkType_String_injective (a b : Int)
    (h : NetworkType.String a = NetworkType.String b) : a = b := by
  by_cases ha : a < 0 ∨ 3 ≤ a <;> by_cases hb : b < 0 ∨ 3 ≤ b
  · rw [NetworkType_String_out_of_range a ha,
      NetworkType_String_out_of_range b hb] at h
    exact placeholder_injective a b h
  · rw [NetworkType_String_out_of_range a ha] at h
    have hb' : b = 0 ∨ b = 1 ∨ b = 2 := by omega
    rcases hb' with rfl | rfl | rfl <;>
      exact absurd h (unknown_not_literal _ _ (by decide))
  · rw [NetworkType_String_out_of_range b hb] at h
    have ha' : a = 0 ∨ a = 1 ∨ a = 2 := by omega
    rcases ha' with rfl | rfl | rfl <;>
      exact absurd h.symm (unknown_not_literal _ _ (by decide))
  · have ha' : a = 0 ∨ a = 1 ∨ a = 2 := by omega
    have hb' : b = 0 ∨ b = 1 ∨ b = 2 := by omega
    rcases ha' with rfl | rfl | rfl <;> rcases hb' with rfl | rfl | rfl <;>
      first | rfl | exact absurd h (by decide)

/-- C12: for each of `PlatformType`, `FileAccessType` and `NetworkType` and for
all integer discriminants `a` and `b`, valid or not, equal renderings
(`a.String() == b.String()`) force `a = b`. In particular two distinct
out-of-range discriminants never give the same placeholder `unknown(<d>)`, and
no placeholder is a declared literal. -/
theorem C12_render_injective (a b : Int) :
    (PlatformType.String a = PlatformType.String b → a = b) ∧
    (FileAccessType.String a = FileAccessType.String b → a = b) ∧
    (NetworkType.String a = NetworkType.String b → a = b) ∧
    (a ≠ b → "unknown(" ++ fmtInteger a ++ ")" ≠ "unknown(" ++ fmtInteger b ++ ")") ∧
    ((a < 0 ∨ 2 ≤ a) → PlatformType.String a ∉ platformLiterals) ∧
    ((a < 0 ∨ 2 ≤ a) → FileAccessType.String a ∉ fileAccessLiterals) ∧
    ((a < 0 ∨ 3 ≤ a) → NetworkType.String a ∉ networkLiterals) := by
  refine ⟨PlatformType_String_injective a b, FileAccessType_String_injective a b,
    NetworkType_String_injective a b, fun hne h => hne (placeholder_injective a b h),
    fun ha => ?_, fun ha => ?_, fun ha => ?_⟩
  · rw [PlatformType_String_out_of_range a ha]
    exact unknown_not_mem_platformLiterals _
  · rw [FileAccessType_String_out_of_range a ha]
    exact unknown_not_mem_fileAccessLiterals _
  · rw [NetworkType_String_out_of_range a ha]
    exact unknown_not_mem_networkLiterals _

/-- C12 at the pairs `(7, 7)`, `(2, 3)`, `(2, -2)`, `(-3, 3)` and at the
discriminant `-3`. -/
theorem C12_render_injective_witness :
    (PlatformType.String 7 = PlatformType.String 7 ∧ (7 : Int) = 7) ∧
    PlatformType.String 2 ≠ PlatformType.String 3 ∧
    NetworkType.String 2 ≠ NetworkType.String (-2) ∧
    ("unknown(" ++ fmtInteger (-3) ++ ")" ≠ "unknown(" ++ fmtInteger 3 ++ ")") ∧
    PlatformType.String (-3) ∉ platformLiterals ∧
    FileAccessType.String (-3) ∉ fileAccessLiterals ∧
    NetworkType.String (-3) ∉ networkLiterals :=
  ⟨⟨rfl, (C12_render_injective 7 7).1 rfl⟩,
   fun h => absurd ((C12_render_injective 2 3).1 h) (by decide),
   fun h => absurd ((C12_render_injective 2 (-2)).2.2.1 h) (by decide),
   (C12_render_injective (-3) 3).2.2.2.1 (by decide),
   (C12_render_injective (-3) 3).2.2.2.2.1 (by decide),
   (C12_render_injective (-3) 3).2.2.2.2.2.1 (by decide),
   (C12_render_injective (-3) 3).2.2.2.2.2.2 (by decide)⟩

/-! ## C13: the value returned alongside an error -/

/-- C13: for a string `s` that is not a declared literal, the first component of
the result of each parse function is the discriminant `0`, which is the first
variant (`PlatformPtrace`, `FileAccessProxy`, `NetworkSandbox`); it is the same
value as the one returned for `"ptrace"`, `"proxy"`, `"sandbox"`, and the two
results differ only in the error component, which is non-nil for `s` and nil for
the literal. -/
theorem C13_value_alongside_error (wide : Nat → Bool) (s : String) :
    (s ∉ platformLiterals →
      (MakePlatformType wide s).1 = 0 ∧
      (MakePlatformType wide s).1 = PlatformPtrace ∧
      (MakePlatformType wide s).1 = (MakePlatformType wide "ptrace").1 ∧
      (MakePlatformType wide s).2 ≠ none ∧
      (MakePlatformType wide "ptrace").2 = none) ∧
    (s ∉ fileAccessLiterals →
      (MakeFileAccessType wide s).1 = 0 ∧
      (MakeFileAccessType wide s).1 = FileAccessProxy ∧
      (MakeFileAccessType wide s).1 = (MakeFileAccessType wide "proxy").1 ∧
      (MakeFileAccessType wide s).2 ≠ none ∧
      (MakeFileAccessType wide "proxy").2 = none) ∧
    (s ∉ networkLiterals →
      (MakeNetworkType wide s).1 = 0 ∧
      (MakeNetworkType wide s).1 = NetworkSandbox ∧
      (MakeNetworkType wide s).1 = (MakeNetworkType wide "sandbox").1 ∧
      (MakeNetworkType wide s).2 ≠ none ∧
      (MakeNetworkType wide "sandbox").2 = none) := by
  refine ⟨fun h => ?_, fun h => ?_, fun h => ?_⟩
  · rw [MakePlatformType_rejected wide s h]
    exact ⟨rfl, rfl, rfl, by simp, rfl⟩
  · rw [MakeFileAccessType_rejected wide s h]
    exact ⟨rfl, rfl, rfl, by simp, rfl⟩
  · rw [MakeNetworkType_rejected wide s h]
    exact ⟨rfl, rfl, rfl, by simp, rfl⟩

/-- C13 at the rejected string `"KVM"`. -/
theorem C13_value_alongside_error_witness :
    "KVM" ∉ platformLiterals ∧
    ((MakePlatformType (fun _ => true) "KVM").1 = 0 ∧
      (MakePlatformType (fun _ => true) "KVM").1 = PlatformPtrace ∧
      (MakePlatformType (fun _ => true) "KVM").1 =
        (MakePlatformType (fun _ => true) "ptrace").1 ∧
      (MakePlatformType (fun _ => true) "KVM").2 ≠ none ∧
      (MakePlatformType (fun _ => true) "ptrace").2 = none) ∧
    "KVM" ∉ fileAccessLiterals ∧
    ((MakeFileAccessType (fun _ => true) "KVM").1 = 0 ∧
      (MakeFileAccessType (fun _ => true) "KVM").1 = FileAccessProxy ∧
      (MakeFileAccessType (fun _ => true) "KVM").1 =
        (MakeFileAccessType (fun _ => true) "proxy").1 ∧
      (MakeFileAccessType (fun _ => true) "KVM").2 ≠ none ∧
      (MakeFileAccessType (fun _ => true) "proxy").2 = none) ∧
    "KVM" ∉ networkLiterals ∧
    ((MakeNetworkType (fun _ => true) "KVM").1 = 0 ∧
      (MakeNetworkType (fun _ => true) "KVM").1 = NetworkSandbox ∧
      (MakeNetworkType (fun _ => true) "KVM").1 =
        (MakeNetworkType (fun _ => true) "sandbox").1 ∧
      (MakeNetworkType (fun _ => true) "KVM").2 ≠ none ∧
      (MakeNetworkType (fun _ => true) "sandbox").2 = none) :=
  ⟨by decide, (C13_value_alongside_error (fun _ => true) "KVM").1 (by decide),
   by decide, (C13_value_alongside_error (fun _ => true) "KVM").2.1 (by decide),
   by decide, (C13_value_alongside_error (fun _ => true) "KVM").2.2 (by decide)⟩
